import Mathlib

/-!
Verification of the multi-factor scoring engine of the EVChargeAdvisor
repository.  The scoring formulas from
src/analysis/equity_analyzer.py, src/analysis/global_equity_analyzer.py,
src/analysis/infrastructure_analyzer.py, src/data_access/overpass_api.py
and src/data_access/census_client.py are embedded shallowly over the
rationals; Python float rounding (round half to even) is modelled by
pyRound below.
-/

namespace EVCharge

/-- Floor of a rational, by integer division of numerator by denominator
(kernel-computable form of the floor). -/
def ratFloor (x : ℚ) : ℤ := x.num / (x.den : ℤ)

theorem ratFloor_eq_floor (x : ℚ) : ratFloor x = ⌊x⌋ := Rat.floor_def.symm

/-- Python built-in round to an integer: round half to even. -/
def pyRound (x : ℚ) : ℤ :=
  if x - ratFloor x < 1/2 then ratFloor x
  else if 1/2 < x - ratFloor x then ratFloor x + 1
  else if ratFloor x % 2 = 0 then ratFloor x else ratFloor x + 1

/-- Python round(x, 1). -/
def round1 (x : ℚ) : ℚ := (pyRound (x * 10) : ℚ) / 10

/-- Python round(x, 2). -/
def round2 (x : ℚ) : ℚ := (pyRound (x * 100) : ℚ) / 100

theorem pyRound_le (x : ℚ) : (pyRound x : ℚ) ≤ x + 1/2 := by
  have hf : (⌊x⌋ : ℚ) ≤ x := Int.floor_le x
  have hf2 : x < (⌊x⌋ : ℚ) + 1 := Int.lt_floor_add_one x
  unfold pyRound
  rw [ratFloor_eq_floor]
  split_ifs <;> push_cast <;> linarith

theorem le_pyRound (x : ℚ) : x - 1/2 ≤ (pyRound x : ℚ) := by
  have hf : (⌊x⌋ : ℚ) ≤ x := Int.floor_le x
  have hf2 : x < (⌊x⌋ : ℚ) + 1 := Int.lt_floor_add_one x
  unfold pyRound
  rw [ratFloor_eq_floor]
  split_ifs <;> push_cast <;> linarith

theorem pyRound_mono {x y : ℚ} (h : x ≤ y) : pyRound x ≤ pyRound y := by
  by_contra hc
  push_neg at hc
  have h1 : pyRound y + 1 ≤ pyRound x := Int.add_one_le_iff.mpr hc
  have h1q : ((pyRound y : ℚ) + 1) ≤ (pyRound x : ℚ) := by exact_mod_cast h1
  have bx : (pyRound x : ℚ) ≤ x + 1/2 := pyRound_le x
  have hy : y - 1/2 ≤ (pyRound y : ℚ) := le_pyRound y
  have hxy : x = y := le_antisymm h (by linarith)
  rw [hxy] at hc
  exact lt_irrefl _ hc

theorem pyRound_intCast (n : ℤ) : pyRound (n : ℚ) = n := by
  unfold pyRound
  rw [ratFloor_eq_floor, Int.floor_intCast]
  norm_num

theorem round1_mono {x y : ℚ} (h : x ≤ y) : round1 x ≤ round1 y := by
  unfold round1
  have h10 : x * 10 ≤ y * 10 := by linarith
  have := pyRound_mono h10
  have hq : (pyRound (x * 10) : ℚ) ≤ (pyRound (y * 10) : ℚ) := by exact_mod_cast this
  linarith

theorem round1_le (x : ℚ) : round1 x ≤ x + 1/20 := by
  unfold round1
  have := pyRound_le (x * 10)
  linarith

theorem le_round1 (x : ℚ) : x - 1/20 ≤ round1 x := by
  unfold round1
  have := le_pyRound (x * 10)
  linarith

theorem round1_eq_self (k : ℤ) {x : ℚ} (hk : x * 10 = (k : ℚ)) : round1 x = x := by
  unfold round1
  rw [hk, pyRound_intCast, ← hk]
  ring

theorem round1_zero : round1 0 = 0 := round1_eq_self 0 (by norm_num)

theorem round1_hundred : round1 100 = 100 := round1_eq_self 1000 (by norm_num)

/-! ## Regional equity scorer (EquityAnalyzer._calculate_equity_score) -/

/-- Raw access score from stations per 1000 people
(equity_analyzer.py lines 211-218). -/
def accessScoreRaw (sp : ℚ) : ℚ :=
  if 1 ≤ sp then 100
  else if 0.5 ≤ sp then 70 + (sp - 0.5) * 60
  else if 0.1 ≤ sp then 30 + (sp - 0.1) * 100
  else sp * 300

/-- Stored access component: min(round(access_score, 1), 100). -/
def accessComponent (sp : ℚ) : ℚ := min (round1 (accessScoreRaw sp)) 100

/-- Raw affordability score from the poverty rate
(equity_analyzer.py lines 224-231). -/
def affordabilityScoreRaw (p : ℚ) : ℚ :=
  if p ≤ 5 then 100
  else if p ≤ 10 then 80 - (p - 5) * 4
  else if p ≤ 20 then 60 - (p - 10) * 3
  else max (30 - (p - 20) * 1.5) 0

/-- Stored affordability component: round(affordability_score, 1). -/
def affordabilityComponent (p : ℚ) : ℚ := round1 (affordabilityScoreRaw p)

/-- Raw mobility score from the no-vehicle rate
(equity_analyzer.py lines 238-245). -/
def mobilityScoreRaw (nv : ℚ) : ℚ :=
  if nv ≤ 5 then 90
  else if nv ≤ 10 then 70 + (10 - nv) * 4
  else if nv ≤ 20 then 50 + (20 - nv) * 2
  else max (50 - (nv - 20)) 20

/-- Stored mobility component: round(mobility_score, 1). -/
def mobilityComponent (nv : ℚ) : ℚ := round1 (mobilityScoreRaw nv)

/-- Raw income-alignment score from median income and stations per 1000
(equity_analyzer.py lines 252-265).  The income ratio is against the
fixed national median 75000. -/
def incomeScoreRaw (mi sp : ℚ) : ℚ :=
  if 1.5 ≤ mi / 75000 then min (accessScoreRaw sp * 1.1) 100
  else if 0.8 ≤ mi / 75000 then 70 + (mi / 75000 - 0.8) * 43
  else if sp < 0.3 then 40 else 60

/-- Stored income-alignment component: round(income_score, 1). -/
def incomeAlignmentComponent (mi sp : ℚ) : ℚ := round1 (incomeScoreRaw mi sp)

/-- Result of the regional equity scorer: composite score, grade, rating
and the four stored components. -/
structure EquityScore where
  score : ℚ
  grade : String
  rating : String
  access : ℚ
  affordability : ℚ
  mobility : ℚ
  incomeAlignment : ℚ
  deriving DecidableEq, Repr

/-- Weighted composite over the stored components
(equity_analyzer.py lines 271-276; the weight lookups
weights.get("income", 0.35) etc. resolve to 0.35/0.25/0.20/0.20,
matching EQUITY_WEIGHTS in config/settings.py). -/
def equityComposite (sp mi p nv : ℚ) : ℚ :=
  accessComponent sp * 0.35 + affordabilityComponent p * 0.25 +
    mobilityComponent nv * 0.20 + incomeAlignmentComponent mi sp * 0.20

/-- Grade table of the regional equity scorer (lines 279-288). -/
def equityGradeOf (c : ℚ) : String :=
  if 85 ≤ c then "A" else if 70 ≤ c then "B" else if 55 ≤ c then "C"
  else if 40 ≤ c then "D" else "F"

/-- Rating table of the regional equity scorer (lines 279-288). -/
def equityRatingOf (c : ℚ) : String :=
  if 85 ≤ c then "Excellent" else if 70 ≤ c then "Good"
  else if 55 ≤ c then "Fair" else if 40 ≤ c then "Poor" else "Critical"

/-- EquityAnalyzer._calculate_equity_score: returns the rounded composite,
the grade and rating, and the components map. -/
def calculateEquityScore (sp mi p nv : ℚ) : EquityScore :=
  { score := round1 (equityComposite sp mi p nv)
    grade := equityGradeOf (equityComposite sp mi p nv)
    rating := equityRatingOf (equityComposite sp mi p nv)
    access := accessComponent sp
    affordability := affordabilityComponent p
    mobility := mobilityComponent nv
    incomeAlignment := incomeAlignmentComponent mi sp }

/-- The fixed weighted-sum formula applied to a result's component map
(weights 0.35/0.25/0.20/0.20). -/
def componentWeightedSum (e : EquityScore) : ℚ :=
  e.access * 0.35 + e.affordability * 0.25 + e.mobility * 0.20 +
    e.incomeAlignment * 0.20

/-- Stations per 1000 people (analyze_county_equity line 105):
(station_count / population * 1000) if population > 0 else 0. -/
def stationsPer1000 (stationCount population : ℕ) : ℚ :=
  if 0 < population then (stationCount : ℚ) / (population : ℚ) * 1000 else 0

/-- County poverty rate from the census client
(census_client.py lines 274-276, rounded at line 286): the rate is 0
unless the poverty universe is present, truthy and positive. -/
def censusPovertyRate (belowPoverty : ℚ) (povertyUniverse : Option ℚ) : ℚ :=
  round2 (match povertyUniverse with
    | none => 0
    | some u => if 0 < u then belowPoverty / u * 100 else 0)

/-! ## Coverage / distribution scorer
(InfrastructureAnalyzer._analyze_coverage and _calculate_distribution) -/

/-- A charging station as seen by the distribution scorer: only its
(latitude, longitude) location matters, and it may be absent. -/
structure Station where
  location : Option (ℚ × ℚ)
  deriving DecidableEq, Repr

/-- Latitudes of the stations whose location dictionary is present
(infrastructure_analyzer.py line 212). -/
def stationLats (stations : List Station) : List ℚ :=
  stations.filterMap (fun s => s.location.map (fun l => l.1))

/-- Longitudes of the stations whose location dictionary is present
(infrastructure_analyzer.py line 213). -/
def stationLons (stations : List Station) : List ℚ :=
  stations.filterMap (fun s => s.location.map (fun l => l.2))

/-- Quadrant counts (NE, NW, SE, SW) about the centroid
(infrastructure_analyzer.py lines 222-231).  A station is counted only
when its latitude and longitude are both truthy (present and nonzero),
mirroring the Python test `if lat and lon`. -/
def quadrantCounts (stations : List Station) (clat clon : ℚ) :
    ℕ × ℕ × ℕ × ℕ :=
  stations.foldl (fun q s =>
    match s.location with
    | none => q
    | some (lat, lon) =>
      if lat ≠ 0 ∧ lon ≠ 0 then
        if clat ≤ lat then
          if clon ≤ lon then (q.1 + 1, q.2.1, q.2.2.1, q.2.2.2)
          else (q.1, q.2.1 + 1, q.2.2.1, q.2.2.2)
        else
          if clon ≤ lon then (q.1, q.2.1, q.2.2.1 + 1, q.2.2.2)
          else (q.1, q.2.1, q.2.2.1, q.2.2.2 + 1)
      else q) (0, 0, 0, 0)

/-- InfrastructureAnalyzer._calculate_distribution: evenness score
(rounded to 2 decimals) and rating label. -/
def calculateDistribution (stations : List Station) : ℚ × String :=
  if stations.length < 4 then (0.5, "Insufficient data")
  else
    let lats := stationLats stations
    let lons := stationLons stations
    if lats.isEmpty ∨ lons.isEmpty then (0.5, "No location data")
    else
      let clat := lats.sum / (lats.length : ℚ)
      let clon := lons.sum / (lons.length : ℚ)
      let q := quadrantCounts stations clat clon
      let ne : ℚ := q.1
      let nw : ℚ := q.2.1
      let se : ℚ := q.2.2.1
      let sw : ℚ := q.2.2.2
      let total := ne + nw + se + sw
      let expected := total / 4
      let variance := ((ne - expected) ^ 2 + (nw - expected) ^ 2 +
        (se - expected) ^ 2 + (sw - expected) ^ 2) / 4
      let maxVariance := (total - expected) ^ 2
      let score := if maxVariance = 0 then 1 else 1 - variance / maxVariance
      let rating := if 0.8 ≤ score then "Even" else if 0.6 ≤ score then "Moderate"
        else if 0.4 ≤ score then "Uneven" else "Clustered"
      (round2 score, rating)

/-- math.pi as the exact rational value of the Python float. -/
def mathPi : ℚ := 884279719003555 / 281474976710656

/-- Search area used by _analyze_coverage (line 165): math.pi * r^2. -/
def coverageArea (radiusKm : ℚ) : ℚ := mathPi * radiusKm ^ 2

/-! ## Convenience scorer (OverpassAPIClient.calculate_convenience_score) -/

/-- One category contribution: min(count * weight, cap)
(overpass_api.py lines 415-422). -/
def categoryScore (count : ℕ) (weight cap : ℚ) : ℚ :=
  min ((count : ℚ) * weight) cap

/-- Sum of the six capped category scores (overpass_api.py line 424). -/
def convenienceTotal (dining shopping services transit healthcare
    entertainment : ℕ) : ℚ :=
  categoryScore dining 0.5 2.5 + categoryScore shopping 0.3 1.5 +
    categoryScore services 0.3 1.5 + categoryScore transit 0.5 2.5 +
    categoryScore healthcare 0.5 1.0 + categoryScore entertainment 0.5 1.0

/-- Stored total_score: round(total_score, 1) (overpass_api.py line 427). -/
def convenienceTotalScore (dining shopping services transit healthcare
    entertainment : ℕ) : ℚ :=
  round1 (convenienceTotal dining shopping services transit healthcare
    entertainment)

/-- Grade table _get_grade on the 0-10 scale (overpass_api.py 435-446). -/
def convenienceGrade (score : ℚ) : String :=
  if 8.5 ≤ score then "A" else if 7.0 ≤ score then "B"
  else if 5.0 ≤ score then "C" else if 3.0 ≤ score then "D" else "F"

/-! ## Global equity scorer
(GlobalEquityAnalyzer._calculate_global_equity_score) -/

/-- Python substring containment test (`needle in haystack`). -/
def containsSub (needle haystack : String) : Bool :=
  1 < (haystack.splitOn needle).length

/-- Country-tier station density benchmark
(global_equity_analyzer.py lines 235-240). -/
def stationBenchmark (incomeLevel : String) : ℚ :=
  if containsSub "High" incomeLevel then 0.5
  else if containsSub "Middle" incomeLevel then 0.2
  else 0.05

/-- Search area used by the global scorer (line 242): 3.14159 * r^2. -/
def globalArea (radiusKm : ℚ) : ℚ := 3.14159 * radiusKm ^ 2

/-- Global access component (lines 242-245): density over the benchmark,
capped at 2.0, mapped by *50, rounded, then clamped at 100. -/
def globalAccessComponent (stationCount : ℕ) (radiusKm : ℚ)
    (incomeLevel : String) : ℚ :=
  min (round1 (min (((stationCount : ℚ) / globalArea radiusKm) /
    stationBenchmark incomeLevel) 2 * 50)) 100

/-- Economic readiness step function (lines 248-258). -/
def economicReadiness (incomePerCapita : ℚ) : ℚ :=
  if 50000 ≤ incomePerCapita then 100
  else if 30000 ≤ incomePerCapita then 80
  else if 15000 ≤ incomePerCapita then 60
  else if 5000 ≤ incomePerCapita then 40 else 20

/-- Global affordability step function (lines 261-271).  The Python
expression demographics.get("poverty_rate") or 0 maps a missing or None
poverty rate (and a zero one) to 0. -/
def globalAffordability (povertyRate : Option ℚ) : ℚ :=
  let p := povertyRate.getD 0
  if p ≤ 5 then 100 else if p ≤ 10 then 80 else if p ≤ 20 then 60
  else if p ≤ 30 then 40 else 20

/-- Infrastructure readiness (lines 274-280): average of ev_readiness
(default 50) and electricity_access (default 100) for non-US countries,
fixed 90 for the US. -/
def infrastructureReadiness (countryCode : String)
    (evReadiness electricityAccess : Option ℚ) : ℚ :=
  if countryCode ≠ "USA" then
    round1 ((evReadiness.getD 50 + electricityAccess.getD 100) / 2)
  else 90

/-- Result of the global equity scorer. -/
structure GlobalEquityScore where
  score : ℚ
  grade : String
  rating : String
  access : ℚ
  economicReadiness : ℚ
  affordability : ℚ
  infrastructureReadiness : ℚ
  deriving DecidableEq, Repr

/-- Weighted composite of the global scorer (lines 283-293). -/
def globalComposite (access econ afford infra : ℚ) : ℚ :=
  access * 0.35 + econ * 0.25 + afford * 0.20 + infra * 0.20

/-- Grade table of the global scorer (lines 296-305). -/
def globalGradeOf (s : ℚ) : String :=
  if 80 ≤ s then "A" else if 65 ≤ s then "B" else if 50 ≤ s then "C"
  else if 35 ≤ s then "D" else "F"

/-- Rating table of the global scorer (lines 296-305). -/
def globalRatingOf (s : ℚ) : String :=
  if 80 ≤ s then "Excellent" else if 65 ≤ s then "Good"
  else if 50 ≤ s then "Fair" else if 35 ≤ s then "Poor" else "Critical"

/-- GlobalEquityAnalyzer._calculate_global_equity_score. -/
def calculateGlobalEquityScore (stationCount : ℕ) (radiusKm : ℚ)
    (incomeLevel : String) (incomePerCapita : ℚ) (povertyRate : Option ℚ)
    (countryCode : String) (evReadiness electricityAccess : Option ℚ) :
    GlobalEquityScore :=
  let access := globalAccessComponent stationCount radiusKm incomeLevel
  let econ := economicReadiness incomePerCapita
  let afford := globalAffordability povertyRate
  let infra := infrastructureReadiness countryCode evReadiness
    electricityAccess
  { score := round1 (globalComposite access econ afford infra)
    grade := globalGradeOf (globalComposite access econ afford infra)
    rating := globalRatingOf (globalComposite access econ afford infra)
    access := access
    economicReadiness := econ
    affordability := afford
    infrastructureReadiness := infra }

/-! ## Helper lemmas: bounds and monotonicity of the component formulas -/

theorem round2_zero : round2 0 = 0 := by
  unfold round2
  rw [show ((0 : ℚ) * 100) = ((0 : ℤ) : ℚ) by norm_num, pyRound_intCast]
  norm_num

theorem accessScoreRaw_nonneg {sp : ℚ} (h : 0 ≤ sp) : 0 ≤ accessScoreRaw sp := by
  unfold accessScoreRaw
  split_ifs <;> norm_num at * <;> linarith

theorem accessScoreRaw_le_100 (sp : ℚ) : accessScoreRaw sp ≤ 100 := by
  unfold accessScoreRaw
  split_ifs <;> norm_num at * <;> linarith

theorem accessComponent_bounds {sp : ℚ} (h : 0 ≤ sp) :
    0 ≤ accessComponent sp ∧ accessComponent sp ≤ 100 := by
  constructor
  · exact le_min (round1_zero ▸ round1_mono (accessScoreRaw_nonneg h))
      (by norm_num)
  · exact min_le_right _ _

theorem affordabilityScoreRaw_bounds (p : ℚ) :
    0 ≤ affordabilityScoreRaw p ∧ affordabilityScoreRaw p ≤ 100 := by
  unfold affordabilityScoreRaw
  split_ifs with h1 h2 h3
  · norm_num
  · push_neg at h1
    constructor <;> linarith
  · push_neg at h1 h2
    constructor <;> linarith
  · push_neg at h1 h2 h3
    exact ⟨le_max_right _ _, max_le (by linarith) (by norm_num)⟩

theorem affordabilityComponent_bounds (p : ℚ) :
    0 ≤ affordabilityComponent p ∧ affordabilityComponent p ≤ 100 := by
  obtain ⟨h0, h1⟩ := affordabilityScoreRaw_bounds p
  exact ⟨round1_zero ▸ round1_mono h0, round1_hundred ▸ round1_mono h1⟩

theorem mobilityScoreRaw_bounds (nv : ℚ) :
    20 ≤ mobilityScoreRaw nv ∧ mobilityScoreRaw nv ≤ 90 := by
  unfold mobilityScoreRaw
  split_ifs with h1 h2 h3
  · norm_num
  · push_neg at h1
    constructor <;> linarith
  · push_neg at h1 h2
    constructor <;> linarith
  · push_neg at h1 h2 h3
    exact ⟨le_max_right _ _, max_le (by linarith) (by norm_num)⟩

theorem round1_twenty : round1 20 = 20 := round1_eq_self 200 (by norm_num)

theorem round1_ninety : round1 90 = 90 := round1_eq_self 900 (by norm_num)

theorem mobilityComponent_bounds (nv : ℚ) :
    20 ≤ mobilityComponent nv ∧ mobilityComponent nv ≤ 90 := by
  obtain ⟨h0, h1⟩ := mobilityScoreRaw_bounds nv
  exact ⟨round1_twenty ▸ round1_mono h0, round1_ninety ▸ round1_mono h1⟩

theorem incomeScoreRaw_bounds (mi : ℚ) {sp : ℚ} (hsp : 0 ≤ sp) :
    0 ≤ incomeScoreRaw mi sp ∧ incomeScoreRaw mi sp ≤ 1001/10 := by
  unfold incomeScoreRaw
  have hacc := accessScoreRaw_nonneg hsp
  split_ifs with h1 h2 h3
  · refine ⟨le_min (by nlinarith) (by norm_num), ?_⟩
    exact le_trans (min_le_right _ _) (by norm_num)
  · push_neg at h1
    constructor <;> nlinarith
  · norm_num
  · norm_num

theorem round1_100_1 : round1 (1001/10) = 1001/10 :=
  round1_eq_self 1001 (by norm_num)

theorem incomeAlignmentComponent_bounds (mi : ℚ) {sp : ℚ} (hsp : 0 ≤ sp) :
    0 ≤ incomeAlignmentComponent mi sp ∧
      incomeAlignmentComponent mi sp ≤ 1001/10 := by
  obtain ⟨h0, h1⟩ := incomeScoreRaw_bounds mi hsp
  exact ⟨round1_zero ▸ round1_mono h0, round1_100_1 ▸ round1_mono h1⟩

theorem affordabilityScoreRaw_antitone {a b : ℚ} (hab : a ≤ b) :
    affordabilityScoreRaw b ≤ affordabilityScoreRaw a := by
  unfold affordabilityScoreRaw
  split_ifs <;> push_neg at * <;>
    first
      | linarith
      | exact max_le (by linarith) (by linarith)
      | exact max_le_max (by linarith) le_rfl

/-! ## Claim theorems -/

/-- Four stations all at latitude 1, longitude 1: their centroid is
(1, 1) and the `lat >= center_lat` / `lon >= center_lon` tests put every
station in the NE quadrant. -/
def clusteredStations : List Station :=
  [⟨some (1, 1)⟩, ⟨some (1, 1)⟩, ⟨some (1, 1)⟩, ⟨some (1, 1)⟩]

/-- C1: with all four stations in a single quadrant the distribution
evenness score is 0.67 (2/3 before rounding), not the 0.0 the spec and
the code comment on max_variance promise: the variance is divided by 4
but the claimed worst-case variance is not. -/
theorem distribution_single_quadrant_score :
    calculateDistribution clusteredStations = (67/100, "Moderate") ∧
      (calculateDistribution clusteredStations).1 ≠ 0 := by
  constructor
  · simp only [calculateDistribution, clusteredStations, stationLats,
      stationLons, quadrantCounts, List.filterMap, List.foldl, List.length,
      List.isEmpty, List.sum, round2, pyRound, ratFloor_eq_floor]
    norm_num
  · simp only [calculateDistribution, clusteredStations, stationLats,
      stationLons, quadrantCounts, List.filterMap, List.foldl, List.length,
      List.isEmpty, List.sum, round2, pyRound, ratFloor_eq_floor]
    norm_num

/-- C9: any station list with fewer than 4 entries gets the fixed
neutral score 0.5 with the "Insufficient data" label, before any
location is inspected. -/
theorem distribution_insufficient_data (stations : List Station)
    (h : stations.length < 4) :
    calculateDistribution stations = (0.5, "Insufficient data") := by
  simp only [calculateDistribution, if_pos h]

/-- Witness for C9 at the empty station list. -/
theorem distribution_insufficient_data_witness :
    ([] : List Station).length < 4 ∧
      calculateDistribution ([] : List Station) =
        (0.5, "Insufficient data") :=
  ⟨by simp, distribution_insufficient_data [] (by simp)⟩

/-- C7: zero or missing denominators are treated as rate 0
(population in stations_per_1000, the census poverty universe), and for
a positive search radius the areas pi*r^2 used as density denominators
in the global and coverage analyzers are nonzero. -/
theorem no_division_by_zero (stationCount : ℕ) (below r : ℚ)
    (hr : 0 < r) :
    stationsPer1000 stationCount 0 = 0 ∧
      censusPovertyRate below none = 0 ∧
      censusPovertyRate below (some 0) = 0 ∧
      globalArea r ≠ 0 ∧ coverageArea r ≠ 0 := by
  refine ⟨by simp [stationsPer1000], ?_, ?_, ?_, ?_⟩
  · simp only [censusPovertyRate]
    exact round2_zero
  · simp only [censusPovertyRate, lt_irrefl, if_neg]
    exact round2_zero
  · have : 0 < globalArea r := by unfold globalArea; positivity
    exact ne_of_gt this
  · have : 0 < coverageArea r := by unfold coverageArea mathPi; positivity
    exact ne_of_gt this

/-- Witness for C7 with radius 10 km. -/
theorem no_division_by_zero_witness :
    (0 : ℚ) < 10 ∧
      (stationsPer1000 0 0 = 0 ∧ censusPovertyRate 0 none = 0 ∧
        censusPovertyRate 0 (some 0) = 0 ∧ globalArea 10 ≠ 0 ∧
        coverageArea 10 ≠ 0) :=
  ⟨by norm_num, no_division_by_zero 0 0 10 (by norm_num)⟩

/-- C10: in the global scorer a missing poverty rate is coerced to 0 by
`or 0`, so the affordability component is 100 (the best tier), and the
whole result is identical to the one for a poverty rate of exactly 0. -/
theorem global_missing_poverty_is_best (stationCount : ℕ) (radiusKm : ℚ)
    (incomeLevel : String) (incomePerCapita : ℚ) (countryCode : String)
    (evReadiness electricityAccess : Option ℚ) :
    (calculateGlobalEquityScore stationCount radiusKm incomeLevel
      incomePerCapita none countryCode evReadiness
      electricityAccess).affordability = 100 ∧
    calculateGlobalEquityScore stationCount radiusKm incomeLevel
      incomePerCapita none countryCode evReadiness electricityAccess =
    calculateGlobalEquityScore stationCount radiusKm incomeLevel
      incomePerCapita (some 0) countryCode evReadiness
      electricityAccess := by
  constructor
  · simp [calculateGlobalEquityScore, globalAffordability]
  · simp [calculateGlobalEquityScore, globalAffordability]

/-- Each category contribution times 10 is an integer: min(c*w, cap)*10
equals the integer min(c*(10w), 10*cap) when 10w and 10*cap are integers. -/
theorem categoryScore_mul_ten (c : ℕ) (w cap : ℚ) (a b : ℤ)
    (hw : w * 10 = (a : ℚ)) (hcap : cap * 10 = (b : ℚ)) :
    categoryScore c w cap * 10 = ((min ((c : ℤ) * a) b : ℤ) : ℚ) := by
  unfold categoryScore
  rcases le_total ((c : ℚ) * w) cap with h | h
  · have hq : (((c : ℤ) * a : ℤ) : ℚ) ≤ ((b : ℤ) : ℚ) := by
      push_cast
      rw [← hw, ← hcap]
      calc (c : ℚ) * (w * 10) = ((c : ℚ) * w) * 10 := by ring
        _ ≤ cap * 10 := by linarith
    have hzb : (c : ℤ) * a ≤ b := by exact_mod_cast hq
    rw [min_eq_left h, min_eq_left hzb]
    push_cast
    rw [← hw]
    ring
  · have hq : ((b : ℤ) : ℚ) ≤ (((c : ℤ) * a : ℤ) : ℚ) := by
      push_cast
      rw [← hw, ← hcap]
      calc cap * 10 ≤ ((c : ℚ) * w) * 10 := by linarith
        _ = (c : ℚ) * (w * 10) := by ring
    have hzb : b ≤ (c : ℤ) * a := by exact_mod_cast hq
    rw [min_eq_right h, min_eq_right hzb]
    exact hcap

theorem categoryScore_nonneg (c : ℕ) (w cap : ℚ) (hw : 0 ≤ w)
    (hcap : 0 ≤ cap) : 0 ≤ categoryScore c w cap :=
  le_min (mul_nonneg (Nat.cast_nonneg c) hw) hcap

theorem categoryScore_le_cap (c : ℕ) (w cap : ℚ) :
    categoryScore c w cap ≤ cap := min_le_right _ _

/-- C8: the stored convenience total equals the sum of the six capped
category contributions (the final round(x, 1) is the identity because
every contribution is a multiple of 0.1), the total lies in [0, 10],
and the scenario dining_count=10 with everything else 0 scores 2.5 with
grade "F". -/
theorem convenience_score_correct (dining shopping services transit
    healthcare entertainment : ℕ) :
    convenienceTotalScore dining shopping services transit healthcare
        entertainment =
      convenienceTotal dining shopping services transit healthcare
        entertainment ∧
    0 ≤ convenienceTotal dining shopping services transit healthcare
        entertainment ∧
    convenienceTotal dining shopping services transit healthcare
        entertainment ≤ 10 ∧
    convenienceTotalScore 10 0 0 0 0 0 = 2.5 ∧
    convenienceGrade (convenienceTotal 10 0 0 0 0 0) = "F" := by
  have h1 := categoryScore_mul_ten dining 0.5 2.5 5 25 (by norm_num)
    (by norm_num)
  have h2 := categoryScore_mul_ten shopping 0.3 1.5 3 15 (by norm_num)
    (by norm_num)
  have h3 := categoryScore_mul_ten services 0.3 1.5 3 15 (by norm_num)
    (by norm_num)
  have h4 := categoryScore_mul_ten transit 0.5 2.5 5 25 (by norm_num)
    (by norm_num)
  have h5 := categoryScore_mul_ten healthcare 0.5 1.0 5 10 (by norm_num)
    (by norm_num)
  have h6 := categoryScore_mul_ten entertainment 0.5 1.0 5 10 (by norm_num)
    (by norm_num)
  refine ⟨?_, ?_, ?_, ?_, ?_⟩
  · unfold convenienceTotalScore
    refine round1_eq_self (min ((dining : ℤ) * 5) 25 +
      min ((shopping : ℤ) * 3) 15 + min ((services : ℤ) * 3) 15 +
      min ((transit : ℤ) * 5) 25 + min ((healthcare : ℤ) * 5) 10 +
      min ((entertainment : ℤ) * 5) 10) ?_
    have hsum : convenienceTotal dining shopping services transit
        healthcare entertainment * 10 =
        categoryScore dining 0.5 2.5 * 10 + categoryScore shopping 0.3 1.5 * 10 +
        categoryScore services 0.3 1.5 * 10 + categoryScore transit 0.5 2.5 * 10 +
        categoryScore healthcare 0.5 1.0 * 10 +
        categoryScore entertainment 0.5 1.0 * 10 := by
      unfold convenienceTotal
      ring
    rw [hsum, h1, h2, h3, h4, h5, h6]
    push_cast
    ring
  · unfold convenienceTotal
    have n1 := categoryScore_nonneg dining 0.5 2.5
      (by norm_num) (by norm_num)
    have n2 := categoryScore_nonneg shopping 0.3 1.5
      (by norm_num) (by norm_num)
    have n3 := categoryScore_nonneg services 0.3 1.5
      (by norm_num) (by norm_num)
    have n4 := categoryScore_nonneg transit 0.5 2.5
      (by norm_num) (by norm_num)
    have n5 := categoryScore_nonneg healthcare 0.5 1.0
      (by norm_num) (by norm_num)
    have n6 := categoryScore_nonneg entertainment 0.5 1.0
      (by norm_num) (by norm_num)
    linarith
  · unfold convenienceTotal
    have c1 := categoryScore_le_cap dining 0.5 2.5
    have c2 := categoryScore_le_cap shopping 0.3 1.5
    have c3 := categoryScore_le_cap services 0.3 1.5
    have c4 := categoryScore_le_cap transit 0.5 2.5
    have c5 := categoryScore_le_cap healthcare 0.5 1.0
    have c6 := categoryScore_le_cap entertainment 0.5 1.0
    norm_num at c1 c2 c3 c4 c5 c6 ⊢
    linarith
  · simp only [convenienceTotalScore, convenienceTotal, categoryScore,
      round1, pyRound, ratFloor_eq_floor]
    norm_num
  · simp only [convenienceTotal, categoryScore, convenienceGrade]
    norm_num

/-- C2 counterexample: with stations_per_1000 = 0, median_income =
112450, poverty_rate = 0, no_vehicle_rate = 0 (all in the claimed
domain) the stored income_alignment component is 100.1 > 100: the
middle-income branch 70 + (ratio - 0.8)*43 is not clamped. -/
theorem income_component_exceeds_100 :
    (calculateEquityScore 0 112450 0 0).incomeAlignment = 1001/10 ∧
      ¬((calculateEquityScore 0 112450 0 0).incomeAlignment ≤ 100) := by
  have h : (calculateEquityScore 0 112450 0 0).incomeAlignment =
      1001/10 := by
    simp only [calculateEquityScore, incomeAlignmentComponent,
      incomeScoreRaw, accessScoreRaw, round1, pyRound, ratFloor_eq_floor]
    norm_num
  exact ⟨h, by rw [h]; norm_num⟩

/-- C2 amended: for inputs in the claimed domain the access,
affordability and mobility components are in [0, 100], but the
income_alignment component is only bounded by [0, 100.1] and can exceed
100. -/
theorem equity_components_bounds (sp mi p nv : ℚ) (hsp : 0 ≤ sp)
    (hmi : 0 ≤ mi) (hp0 : 0 ≤ p) (hp1 : p ≤ 100) (hnv0 : 0 ≤ nv)
    (hnv1 : nv ≤ 100) :
    (0 ≤ (calculateEquityScore sp mi p nv).access ∧
      (calculateEquityScore sp mi p nv).access ≤ 100) ∧
    (0 ≤ (calculateEquityScore sp mi p nv).affordability ∧
      (calculateEquityScore sp mi p nv).affordability ≤ 100) ∧
    (0 ≤ (calculateEquityScore sp mi p nv).mobility ∧
      (calculateEquityScore sp mi p nv).mobility ≤ 100) ∧
    (0 ≤ (calculateEquityScore sp mi p nv).incomeAlignment ∧
      (calculateEquityScore sp mi p nv).incomeAlignment ≤ 1001/10) := by
  simp only [calculateEquityScore]
  have hm := mobilityComponent_bounds nv
  exact ⟨accessComponent_bounds hsp, affordabilityComponent_bounds p,
    ⟨by linarith [hm.1], by linarith [hm.2]⟩,
    incomeAlignmentComponent_bounds mi hsp⟩

/-- Witness for the amended C2 at sp = 0, mi = 0, p = 0, nv = 0. -/
theorem equity_components_bounds_witness :
    (0 : ℚ) ≤ 0 ∧
      ((0 ≤ (calculateEquityScore 0 0 0 0).access ∧
        (calculateEquityScore 0 0 0 0).access ≤ 100) ∧
      (0 ≤ (calculateEquityScore 0 0 0 0).affordability ∧
        (calculateEquityScore 0 0 0 0).affordability ≤ 100) ∧
      (0 ≤ (calculateEquityScore 0 0 0 0).mobility ∧
        (calculateEquityScore 0 0 0 0).mobility ≤ 100) ∧
      (0 ≤ (calculateEquityScore 0 0 0 0).incomeAlignment ∧
        (calculateEquityScore 0 0 0 0).incomeAlignment ≤ 1001/10)) :=
  ⟨le_refl 0, equity_components_bounds 0 0 0 0 (le_refl 0) (le_refl 0)
    (le_refl 0) (by norm_num) (le_refl 0) (by norm_num)⟩

/-- C3: for inputs in the claimed domain the composite regional equity
score lies in [0, 100] (in fact in [0, 98.07]). -/
theorem equity_score_in_range (sp mi p nv : ℚ) (hsp : 0 ≤ sp)
    (hmi : 0 ≤ mi) (hp0 : 0 ≤ p) (hp1 : p ≤ 100) (hnv0 : 0 ≤ nv)
    (hnv1 : nv ≤ 100) :
    0 ≤ (calculateEquityScore sp mi p nv).score ∧
      (calculateEquityScore sp mi p nv).score ≤ 100 := by
  have ha := accessComponent_bounds hsp
  have hf := affordabilityComponent_bounds p
  have hm := mobilityComponent_bounds nv
  have hi := incomeAlignmentComponent_bounds mi hsp
  have hcomp0 : 0 ≤ equityComposite sp mi p nv := by
    unfold equityComposite
    have := ha.1
    have := hf.1
    have := hm.1
    have := hi.1
    nlinarith [ha.1, hf.1, hm.1, hi.1]
  have hcomp1 : equityComposite sp mi p nv ≤ 9802/100 := by
    unfold equityComposite
    nlinarith [ha.2, hf.2, hm.2, hi.2]
  constructor
  · simp only [calculateEquityScore]
    calc (0 : ℚ) = round1 0 := round1_zero.symm
      _ ≤ round1 (equityComposite sp mi p nv) := round1_mono hcomp0
  · simp only [calculateEquityScore]
    have := round1_le (equityComposite sp mi p nv)
    linarith

/-- Witness for C3 at sp = 0, mi = 0, p = 0, nv = 0. -/
theorem equity_score_in_range_witness :
    (0 : ℚ) ≤ 0 ∧
      (0 ≤ (calculateEquityScore 0 0 0 0).score ∧
        (calculateEquityScore 0 0 0 0).score ≤ 100) :=
  ⟨le_refl 0, equity_score_in_range 0 0 0 0 (le_refl 0) (le_refl 0)
    (le_refl 0) (by norm_num) (le_refl 0) (by norm_num)⟩

/-- C5: the affordability component is 100 for every poverty rate in
[0, 5] and is monotonically non-increasing in the poverty rate on
[0, 100]. -/
theorem affordability_saturates_and_antitone (p p1 p2 : ℚ) (hp0 : 0 ≤ p)
    (hp5 : p ≤ 5) (h10 : 0 ≤ p1) (h12 : p1 ≤ p2) (h2 : p2 ≤ 100) :
    affordabilityComponent p = 100 ∧
      affordabilityComponent p2 ≤ affordabilityComponent p1 := by
  constructor
  · unfold affordabilityComponent affordabilityScoreRaw
    rw [if_pos hp5]
    exact round1_hundred
  · exact round1_mono (affordabilityScoreRaw_antitone h12)

/-- Witness for C5 at p = 3, p1 = 7, p2 = 12. -/
theorem affordability_saturates_and_antitone_witness :
    ((0 : ℚ) ≤ 3 ∧ (3 : ℚ) ≤ 5) ∧ affordabilityComponent 3 = 100 ∧
      affordabilityComponent 12 ≤ affordabilityComponent 7 :=
  ⟨⟨by norm_num, by norm_num⟩,
    (affordability_saturates_and_antitone 3 7 12 (by norm_num)
      (by norm_num) (by norm_num) (by norm_num) (by norm_num)).1,
    (affordability_saturates_and_antitone 3 7 12 (by norm_num)
      (by norm_num) (by norm_num) (by norm_num) (by norm_num)).2⟩

/-- C4 counterexample: at scenario A the poverty rate 10.48 falls in the
(10, 20] branch, so the stored affordability component is 58.6
(from 60 - (10.48 - 10)*3 = 58.56), not 58.08. -/
theorem scenarioA_affordability_not_5808 :
    (calculateEquityScore (stationsPer1000 50 851036) 136689 10.48
        4.12).affordability = 58.6 ∧
      (calculateEquityScore (stationsPer1000 50 851036) 136689 10.48
        4.12).affordability ≠ 58.08 := by
  have h : (calculateEquityScore (stationsPer1000 50 851036) 136689 10.48
      4.12).affordability = 58.6 := by
    simp only [calculateEquityScore, affordabilityComponent,
      affordabilityScoreRaw, round1, pyRound, ratFloor_eq_floor]
    norm_num
  exact ⟨h, by rw [h]; norm_num⟩

/-- C4 amended: scenario A yields stations_per_1000 ≈ 0.0587, an access
component of 17.6 via the below-0.1 branch, an affordability component
of 58.6 via the (10, 20] branch (60 - (10.48 - 10)*3 = 58.56, rounded),
a composite score 42.7 in [0, 100] and grade "D" from the fixed table. -/
theorem scenarioA_amended :
    (587/10000 < stationsPer1000 50 851036 ∧
      stationsPer1000 50 851036 < 588/10000) ∧
    (calculateEquityScore (stationsPer1000 50 851036) 136689 10.48
      4.12).access = 17.6 ∧
    (calculateEquityScore (stationsPer1000 50 851036) 136689 10.48
      4.12).affordability = 58.6 ∧
    (calculateEquityScore (stationsPer1000 50 851036) 136689 10.48
      4.12).score = 42.7 ∧
    (0 ≤ (calculateEquityScore (stationsPer1000 50 851036) 136689 10.48
      4.12).score ∧
      (calculateEquityScore (stationsPer1000 50 851036) 136689 10.48
        4.12).score ≤ 100) ∧
    (calculateEquityScore (stationsPer1000 50 851036) 136689 10.48
      4.12).grade = "D" := by
  simp only [stationsPer1000, calculateEquityScore, equityComposite,
    equityGradeOf, accessComponent, accessScoreRaw, affordabilityComponent,
    affordabilityScoreRaw, mobilityComponent, mobilityScoreRaw,
    incomeAlignmentComponent, incomeScoreRaw, round1, pyRound,
    ratFloor_eq_floor]
  norm_num

/-- C6 counterexample: at sp = 0.05, mi = 75000, p = 0, nv = 0 the
weighted sum of the stored components is 63.97 while the stored score
field is its rounding 64, so re-applying the formula does not reproduce
the score field exactly. -/
theorem roundtrip_mismatch :
    componentWeightedSum (calculateEquityScore (1/20) 75000 0 0) =
        63.97 ∧
      (calculateEquityScore (1/20) 75000 0 0).score = 64 ∧
      componentWeightedSum (calculateEquityScore (1/20) 75000 0 0) ≠
        (calculateEquityScore (1/20) 75000 0 0).score := by
  have h : componentWeightedSum (calculateEquityScore (1/20) 75000 0 0) =
      63.97 ∧ (calculateEquityScore (1/20) 75000 0 0).score = 64 := by
    simp only [componentWeightedSum, calculateEquityScore, equityComposite,
      accessComponent, accessScoreRaw, affordabilityComponent,
      affordabilityScoreRaw, mobilityComponent, mobilityScoreRaw,
      incomeAlignmentComponent, incomeScoreRaw, round1, pyRound,
      ratFloor_eq_floor]
    norm_num
  refine ⟨h.1, h.2, ?_⟩
  rw [h.1, h.2]
  norm_num

/-- C6 amended: re-applying the weighted-sum formula to the stored
components reproduces the composite before its final rounding; the
stored score field is that composite rounded to one decimal, and so
agrees with the weighted sum only up to 0.05. -/
theorem roundtrip_pre_rounding (sp mi p nv : ℚ) :
    componentWeightedSum (calculateEquityScore sp mi p nv) =
        equityComposite sp mi p nv ∧
      (calculateEquityScore sp mi p nv).score =
        round1 (equityComposite sp mi p nv) ∧
      |(calculateEquityScore sp mi p nv).score -
        componentWeightedSum (calculateEquityScore sp mi p nv)| ≤
          1/20 := by
  refine ⟨rfl, rfl, ?_⟩
  have h1 := round1_le (equityComposite sp mi p nv)
  have h2 := le_round1 (equityComposite sp mi p nv)
  have he : componentWeightedSum (calculateEquityScore sp mi p nv) =
      equityComposite sp mi p nv := rfl
  have hs : (calculateEquityScore sp mi p nv).score =
      round1 (equityComposite sp mi p nv) := rfl
  rw [he, hs, abs_le]
  constructor <;> linarith

end EVCharge
